import Mathlib

/-!
Shallow embedding of the `imbibe` bibliography tool
(`imbibe/__main__.py` and `imbibe/bibextract.py`).

Python strings are modelled as Lean `String` / `List Char`.  Python's
Unicode-aware character predicates (`str.isalpha`, `str.isupper`) are
modelled for ASCII plus the Latin-1 letter block, which covers every
character the program's data (author names, titles, identifiers) uses.
Exceptions are modelled with `Except`; text printed to stderr is
returned explicitly, with each logical warning block modelled as one
list element.
-/

namespace Imbibe

/-- Python `str.isalpha`, restricted to ASCII letters plus the Latin-1
letter range U+00C0..U+00FF (excluding the multiplication and division
signs U+00D7, U+00F7).  Characters outside this range do not occur in
the inputs considered here. -/
def pyIsAlpha (c : Char) : Bool :=
  c.isAlpha || (0xC0 ≤ c.val && c.val ≤ 0xFF && c.val ≠ 0xD7 && c.val ≠ 0xF7)

/-- Python `str.isupper` for a single character, same character-range
caveat as `pyIsAlpha`: ASCII uppercase plus Latin-1 uppercase
U+00C0..U+00DE (excluding U+00D7). -/
def pyIsUpper (c : Char) : Bool :=
  c.isUpper || (0xC0 ≤ c.val && c.val ≤ 0xDE && c.val ≠ 0xD7)

/-- Python regex word character (`\w`): alphanumeric or underscore. -/
def pyIsWordChar (c : Char) : Bool :=
  pyIsAlpha c || c.isDigit || c = '_'

/-- Python `s.split(sep)` for a one-character separator: splits at every
occurrence, keeping empty segments. -/
def splitOnChar (sep : Char) : List Char → List (List Char)
  | [] => [[]]
  | c :: rest =>
    if c = sep then
      [] :: splitOnChar sep rest
    else
      match splitOnChar sep rest with
      | [] => [[c]]
      | g :: gs => (c :: g) :: gs

/-- Python `s.strip()`: drop whitespace from both ends. -/
def pyStrip (l : List Char) : List Char :=
  ((l.dropWhile Char.isWhitespace).reverse.dropWhile Char.isWhitespace).reverse

/-- Python `s.split()` (no argument): split on whitespace runs,
discarding empty words. -/
def pySplitWs (s : String) : List (List Char) :=
  (splitOnChar ' ' (s.data.map fun c => if c.isWhitespace then ' ' else c)).filter
    (fun w => w ≠ [])

/-- `strip_nonalphabetic` (`__main__.py` line 101): keep only alphabetic
characters. -/
def strip_nonalphabetic (s : String) : String :=
  ⟨s.data.filter pyIsAlpha⟩

/-- `make_bibtexid_from_arxivid` (`__main__.py` lines 104-114).  The
`unidecode.unidecode` transliteration library is external to the
repository and is passed in as the function `translit`.  The Python
`assert len(yymm) == 4` on the new-style path is modelled as an
`AssertionError` result. -/
def make_bibtexid_from_arxivid (translit : String → String)
    (firstauthorlastname : String) (arxivid : String) : Except String String :=
  if '/' ∈ arxivid.data then
    let yymm : List Char := ((splitOnChar '/' arxivid.data).getD 1 []).take 4
    .ok (translit (strip_nonalphabetic firstauthorlastname) ++ "_" ++ ⟨yymm⟩)
  else
    let yymm : List Char := (splitOnChar '.' arxivid.data).headD []
    if yymm.length = 4 then
      .ok (translit (strip_nonalphabetic firstauthorlastname) ++ "_" ++ ⟨yymm⟩)
    else
      .error "AssertionError"

/-- Crossref structured author (an element of `cr_result['author']`). -/
structure CrAuthor where
  family : String
  given : String
deriving Repr, DecidableEq

/-- The state of a `BibItem` object (`__main__.py` lines 151-173).
Attributes that `__init__` leaves unset (and that the Python code reads
behind `try/except AttributeError` or only after population) are
modelled as `Option`/defaulted fields, with "attribute absent" equal to
the default. -/
structure BibRec where
  canonical_id : String
  arxivid : Option String := none
  doi : Option String := none
  journal : Option String := none
  journal_short : Option String := none
  detailed_authors : Option (List CrAuthor) := none
  bibtex_id : Option String := none
  abstract : Option String := none
  comment : Option String := none
  arxiv_populated : Bool := false
  doi_populated : Bool := false
  authors : Option (List String) := none
  title : Option String := none
  volume : Option String := none
  page : Option String := none
  year : Option Int := none
  suppress_volumewarning : Bool := false
  origcase : Option Bool := none
  extra_bibtex_fields : List (String × String) := []
deriving Repr, DecidableEq

/-- `BibItem.__init__` (`__main__.py` lines 155-173): requires at least
one identifier; the canonical id is taken from the arXiv id whenever one
is present, from the DOI only otherwise. -/
def BibItem_init (arxivid doi : Option String) : Except String BibRec :=
  match arxivid, doi with
  | none, none => .error "Need to specify either arXiv ID or DOI!"
  | some a, _ => .ok { canonical_id := "arXiv:" ++ a, arxivid := some a, doi := doi }
  | none, some d => .ok { canonical_id := "doi:" ++ d, arxivid := none, doi := some d }

/-- One record of the arXiv query response, restricted to the fields the
program reads. -/
structure ArxivResult where
  authors : List String
  title : String
  summary : String
  doi : Option String := none
deriving Repr, DecidableEq

/-- An exception, identified by `e.args[0]` as the Python code inspects
it (`__main__.py` line 41). -/
structure Exn where
  args0 : String
deriving Repr, DecidableEq

/-- `BibItem.read_arxiv_information` (`__main__.py` lines 346-360).  In
Python the method mutates `self` and prints a warning block (five
stderr lines) on a DOI conflict; here it returns the updated record and
the list of warning blocks, each block one list element. -/
def read_arxiv_information (b : BibRec) (r : ArxivResult) : BibRec × List String :=
  let b1 := { b with authors := some r.authors, title := some r.title,
                     abstract := some r.summary }
  match b1.doi, r.doi with
  | some d, some d2 =>
    if d ≠ d2 then
      ({ b1 with arxiv_populated := true },
       ["WARNING: manually specified DOI for arXiv:" ++ b1.arxivid.getD "" ++
        " disagrees with arXiv information.\nYou have: \narXiv has: " ++ d2 ++
        "\nUsing your DOI.\n"])
    else
      ({ b1 with doi := some d2, arxiv_populated := true }, [])
  | none, some d2 => ({ b1 with doi := some d2, arxiv_populated := true }, [])
  | _, none => ({ b1 with arxiv_populated := true }, [])

/-- The sublist of records the arXiv resolver works on
(`__main__.py` lines 31-32). -/
def bibitems_with_arxivid (items : List BibRec) : List BibRec :=
  items.filter fun b => b.arxivid.isSome && !b.arxiv_populated

/-- The id list submitted to arXiv (`__main__.py` line 33). -/
def arxiv_ids (items : List BibRec) : List String :=
  (bibitems_with_arxivid items).filterMap (·.arxivid)

/-- The per-item fallback loop (`__main__.py` lines 46-52): query each id
individually; on the first individual failure (including an empty result
list, whose `[0]` raises `IndexError`), print which id failed and
re-raise that exception. -/
def arxiv_individual_query (query1 : String → Except Exn (List ArxivResult)) :
    List String → Except (Exn × List String) (List ArxivResult)
  | [] => .ok []
  | x :: rest =>
    match query1 x with
    | .error ee => .error (ee, ["arXiv ID not found (or other error): " ++ x])
    | .ok [] => .error (⟨"IndexError"⟩, ["arXiv ID not found (or other error): " ++ x])
    | .ok (r :: _) =>
      match arxiv_individual_query query1 rest with
      | .error e => .error e
      | .ok others => .ok (r :: others)

/-- `populate_arxiv_information` (`__main__.py` lines 30-58).  The batch
query and the single-id query of the external arXiv client are the
parameters `queryN` and `query1`.  In Python the function mutates the
matched records in place; here it returns the updated records of
`bibitems_with_arxivid items` together with all warning blocks, and an
error result carries the exception and the stderr lines printed before
re-raising. -/
def populate_arxiv_information
    (queryN : List String → Except Exn (List ArxivResult))
    (query1 : String → Except Exn (List ArxivResult))
    (items : List BibRec) :
    Except (Exn × List String) (List BibRec × List String) :=
  let withArxiv := bibitems_with_arxivid items
  let ids := arxiv_ids items
  if ids.length = 0 then .ok (withArxiv, [])
  else
    let resultsE : Except (Exn × List String) (List ArxivResult) :=
      match queryN ids with
      | .ok rs => .ok rs
      | .error e =>
        if e.args0 ≠ "HTTP Error 400 in query" then .error (e, [])
        else arxiv_individual_query query1 ids
    match resultsE with
    | .error e => .error e
    | .ok results =>
      if results.length ≠ ids.length then
        .error (⟨"arXiv returned wrong number of papers."⟩, [])
      else
        let updated := (withArxiv.zip results).map fun p =>
          read_arxiv_information p.1 p.2
        .ok (updated.map (·.1), (updated.map (·.2)).flatten)

/-- `re.split` with the pattern of `protect_words` (`__main__.py` line
132): each non-word character is a delimiter kept as its own piece,
word-character runs (possibly empty) stand between them. -/
def splitKeepNonWord : List Char → List (List Char)
  | [] => [[]]
  | c :: rest =>
    if pyIsWordChar c then
      match splitKeepNonWord rest with
      | [] => [[c]]
      | g :: gs => (c :: g) :: gs
    else
      [] :: [c] :: splitKeepNonWord rest

/-- `protect_words` (`__main__.py` lines 131-140): wrap in braces each
nonempty piece that starts with an uppercase letter and appears in the
protected-words list.  The unconditional debug print of the split list
to stderr (line 133) is diagnostic output, not a warning, and is not
modelled. -/
def protect_words (protected_words : List String) (title : String) : String :=
  String.join ((splitKeepNonWord title.data).map fun w =>
    if w.length ≠ 0 && pyIsUpper (w.headD ' ') && protected_words.contains ⟨w⟩ then
      "\x7b" ++ (⟨w⟩ : String) ++ "\x7d"
    else
      (⟨w⟩ : String))

/-- `origcase_heuristic` (`__main__.py` lines 142-149).  `none` models
the `ZeroDivisionError` raised on a title with no words.  The Python
float comparison `ncapitalized / n > 0.5` equals the exact comparison
`2 * ncapitalized > n` for every word count a title can have. -/
def origcase_heuristic (title : String) : Option Bool :=
  let words := pySplitWs title
  let n := words.length
  let ncapitalized := (words.filter fun w => pyIsUpper (w.headD ' ')).length
  if n = 0 then none
  else if 2 * ncapitalized > n then some false
  else some true

/-- The title-line logic of `BibItem.output_bib` (`__main__.py` lines
324-333): an unset case policy falls back to the heuristic; `true`
wraps the whole title in a double-brace group, `false` applies
selective word protection. -/
def title_line (protected_words : List String) (origcase : Option Bool)
    (title : String) : Except String String :=
  let ocE : Except String Bool :=
    match origcase with
    | some v => .ok v
    | none =>
      match origcase_heuristic title with
      | some v => .ok v
      | none => .error "ZeroDivisionError"
  match ocE with
  | .error e => .error e
  | .ok true => .ok ("  title=\x7b\x7b" ++ title ++ "\x7d\x7d,")
  | .ok false => .ok ("  title=\x7b" ++ protect_words protected_words title ++ "\x7d,")

/-- The two stderr lines of the missing-volume warning
(`__main__.py` lines 319-320), as one warning block. -/
def volume_warning (title : String) : String :=
  "WARNING: No volume in CrossRef data for paper:\n   " ++ title

/-- The journal block of `BibItem.output_bib` (`__main__.py` lines
310-320): rendered only when `journal` is set; the volume line appears
only when `volume` is set, and its absence produces one warning block
unless suppressed.  Reading an attribute never populated is an
`AttributeError`. -/
def journal_block (b : BibRec) : Except String (List String × List String) :=
  match b.journal with
  | none => .ok ([], [])
  | some _ =>
    match b.journal_short, b.page, b.year with
    | some js, some pg, some yr =>
      let base := ["  journal=\x7b" ++ js ++ "\x7d,",
                   "  pages=\x7b" ++ pg ++ "\x7d,",
                   "  year=\x7b" ++ toString yr ++ "\x7d,"]
      match b.volume with
      | some v => .ok (base ++ ["  volume=\x7b" ++ v ++ "\x7d,"], [])
      | none =>
        if b.suppress_volumewarning then .ok (base, [])
        else
          match b.title with
          | some t => .ok (base, [volume_warning t])
          | none => .error "AttributeError"
    | _, _, _ => .error "AttributeError"

/-- `format_author` (`__main__.py` lines 92-93). -/
def format_author (auth : CrAuthor) : String :=
  auth.family ++ ", " ++ auth.given

/-- `format_authorlist` (`__main__.py` lines 95-99). -/
def format_authorlist (l : List String) : String :=
  match l.getLast? with
  | none => ""
  | some last => String.join (l.dropLast.map (· ++ " and ")) ++ last

/-- `BibItem.first_author_lastname` (`__main__.py` lines 277-281). -/
def first_author_lastname (b : BibRec) : Except String String :=
  match b.detailed_authors with
  | some [] => .error "IndexError"
  | some (a :: _) => .ok a.family
  | none =>
    match b.authors with
    | none => .error "AttributeError"
    | some [] => .error "IndexError"
    | some (a0 :: _) => .ok ⟨(splitOnChar ' ' a0.data).getLastD []⟩

/-- `BibItem.generate_bibtexid` (`__main__.py` lines 268-275). -/
def generate_bibtexid (translit : String → String) (b : BibRec) :
    Except String String :=
  match b.bibtex_id with
  | some bid => .ok bid
  | none =>
    match b.arxivid with
    | none => .error ("For papers not referenced by arXiv ID, you have to" ++
                      "manually specify a BibTeX ID.")
    | some aid =>
      match first_author_lastname b with
      | .error e => .error e
      | .ok last => make_bibtexid_from_arxivid translit last aid

/-- `BibItem.output_bib` (`__main__.py` lines 292-344).  The printed
stdout lines are returned in order as the first component, the warning
blocks printed to stderr as the second; an exception raised while
rendering is an `error` result (the lines printed before the exception
are then not observable in this model). -/
def output_bib (protected_words : List String) (translit : String → String)
    (b : BibRec) (eprint_published : Bool) :
    Except String (List String × List String) :=
  match generate_bibtexid translit b with
  | .error e => .error e
  | .ok bid =>
    match journal_block b with
    | .error e => .error e
    | .ok jOut =>
      match b.title with
      | none => .error "AttributeError"
      | some t =>
        match title_line protected_words b.origcase t with
        | .error e => .error e
        | .ok tLine =>
          match b.authors with
          | none => .error "AttributeError"
          | some auths =>
            let commentLines := match b.comment with
              | some c => [c]
              | none => []
            let headerLine := "@article\x7b" ++ bid ++ ","
            let abstractLines := match b.abstract with
              | some a => ["  abstract=\x7b" ++ a ++ "\x7d,"]
              | none => []
            let eprintLines := match b.arxivid with
              | some aid =>
                if b.doi.isNone || eprint_published then
                  ["  archiveprefix=\x7barXiv\x7d,",
                   "  eprint=\x7b" ++ aid ++ "\x7d,"]
                else []
              | none => []
            let doiLines := match b.doi with
              | some d => ["  doi=\x7b" ++ d ++ "\x7d,"]
              | none => []
            let extraLines := b.extra_bibtex_fields.map fun kv =>
              "  " ++ kv.1 ++ "=\x7b" ++ kv.2 ++ "\x7d,"
            let authorLine := "  author=\x7b" ++ format_authorlist auths ++ "\x7d"
            .ok (commentLines ++ [headerLine] ++ abstractLines ++ eprintLines ++
                 jOut.1 ++ doiLines ++ [tLine] ++ extraLines ++
                 [authorLine, "\x7d", ""],
                 jOut.2)

/-- The sublist of records the DOI resolver works on
(`__main__.py` lines 81-82). -/
def bibitems_with_doi (items : List BibRec) : List BibRec :=
  items.filter fun b => b.doi.isSome && !b.doi_populated

/-- The DOI list handed to `crossref_read`
(`__main__.py` line 83): one entry per record, in record order, with no
deduplication. -/
def dois_to_submit (items : List BibRec) : List String :=
  (bibitems_with_doi items).filterMap (·.doi)

/-- The sequence of `cr.works` calls made by `crossref_read`
(`__main__.py` lines 60-78): `chunk_size` is 1, so a list of more than
one DOI becomes one single-id call per list entry, in order; a list of
at most one DOI is submitted as a single call. -/
def crossref_calls (dois : List String) : List (List String) :=
  match dois with
  | [] => [[]]
  | [d] => [[d]]
  | _ => dois.map fun d => [d]

/-- `unescape_string` (`__main__.py` lines 27-28): remove every
backslash that is not preceded (in the original string) by a
backslash. -/
def unescape_go : Option Char → List Char → List Char
  | _, [] => []
  | prev, c :: rest =>
    if c = '\\' ∧ prev ≠ some '\\' then unescape_go (some c) rest
    else c :: unescape_go (some c) rest

/-- String form of `unescape_go`. -/
def unescape_string (s : String) : String :=
  ⟨unescape_go none s.data⟩

/-- The split of an input line on unescaped `[` and `]`
(`__main__.py` line 205): a bracket whose preceding character is a
backslash is literal text, every other bracket is a (discarded)
delimiter. -/
def split_brackets_go : Option Char → List Char → List (List Char)
  | _, [] => [[]]
  | prev, c :: rest =>
    if (c = '[' ∨ c = ']') ∧ prev ≠ some '\\' then
      [] :: split_brackets_go (some c) rest
    else
      match split_brackets_go (some c) rest with
      | [] => [[c]]
      | g :: gs => (c :: g) :: gs

/-- String form of `split_brackets_go`. -/
def split_brackets (s : String) : List (List Char) :=
  split_brackets_go none s.data

/-- The per-line option values accumulated by
`BibItem.init_from_input_file_line` before the `BibItem` is built. -/
structure ParseOpts where
  doi : Option String := none
  bibtex_id : Option String := none
  suppress_volumewarning : Bool := false
  comment : Option String := none
  origcase : Option Bool := none
  extra_bibtex_fields : List (String × String) := []
deriving Repr, DecidableEq

/-- Python dict assignment `d[k] = v` on an insertion-ordered mapping. -/
def dict_set (l : List (String × String)) (k v : String) :
    List (String × String) :=
  if l.any (·.1 == k) then l.map fun kv => if kv.1 == k then (k, v) else kv
  else l ++ [(k, v)]

/-- The body of the option loop of `BibItem.init_from_input_file_line`
(`__main__.py` lines 230-256), after the option has been split into
`key` and `value`. -/
def dispatch_opt (optional_bibtex_fields : List String) (st : ParseOpts)
    (key value : String) : Except String ParseOpts :=
  if key = "doi" then
    if st.doi.isSome then .error "Specified DOI twice."
    else .ok { st with doi := some value }
  else if key = "bibtex_id" then .ok { st with bibtex_id := some value }
  else if key = "suppress_volumewarning" then
    if value = "yes" then .ok { st with suppress_volumewarning := true }
    else if value = "no" then .ok st
    else .error ("Invalid value: \x27" ++ value ++ "\x27")
  else if key = "comment" then .ok { st with comment := some (unescape_string value) }
  else if key = "origcase" then
    if value = "yes" then .ok { st with origcase := some true }
    else if value = "no" then .ok { st with origcase := some false }
    else if value = "auto" then .ok { st with origcase := none }
    else .ok st
  else if optional_bibtex_fields.contains key then
    .ok { st with extra_bibtex_fields :=
            dict_set st.extra_bibtex_fields key (unescape_string value) }
  else .error ("Invalid option name: \x27" ++ key ++ "\x27")

/-- One iteration of the option loop (`__main__.py` lines 224-229):
strip the option, split it on `:`, take `key` and `value` from the
first two parts (a missing second part is an `IndexError`), then
dispatch. -/
def process_opt (optional_bibtex_fields : List String) (st : ParseOpts)
    (opt : List Char) : Except String ParseOpts :=
  let optStripped := pyStrip opt
  let parts := splitOnChar ':' optStripped
  match parts.get? 1 with
  | none => .error "IndexError"
  | some v => dispatch_opt optional_bibtex_fields st ⟨parts.headD []⟩ ⟨v⟩

/-- `BibItem.init_from_input_file_line` (`__main__.py` lines 200-266).
The configured extra-field keys (`optional_bibtex_fields`, imported
from `imbibe.opts` or `imbibe.opts_default`) and the line-keyed cache
are parameters; on a cache miss the new record is appended to the
returned cache. -/
def init_from_input_file_line (optional_bibtex_fields : List String)
    (cache : List (String × BibRec)) (line : String) :
    Except String (BibRec × List (String × BibRec)) :=
  match cache.find? (·.1 == line) with
  | some kv => .ok (kv.2, cache)
  | none =>
    let splitline := split_brackets line
    let mainS : String := ⟨pyStrip (splitline.headD [])⟩
    let doi0 : Option String :=
      if mainS.take 4 = "doi:" then some (mainS.drop 4) else none
    let arxivid0 : Option String :=
      if mainS.take 4 = "doi:" then none else some mainS
    let optsE : Except String ParseOpts :=
      match splitline.get? 1 with
      | none => .ok { doi := doi0 }
      | some opts =>
        (splitOnChar ',' opts).foldlM (process_opt optional_bibtex_fields)
          { doi := doi0 }
    match optsE with
    | .error e => .error e
    | .ok st =>
      match BibItem_init arxivid0 st.doi with
      | .error e => .error e
      | .ok b0 =>
        let b := { b0 with bibtex_id := st.bibtex_id,
                           suppress_volumewarning := st.suppress_volumewarning,
                           comment := st.comment,
                           origcase := st.origcase,
                           extra_bibtex_fields := st.extra_bibtex_fields }
        .ok (b, cache ++ [(line, b)])

/-- A bibliography-database entry as `bibextract.process_entry` reads
it, restricted to the fields the function touches. -/
structure BibEntry where
  entrytype : String
  id : String
  imbibeable : Option String := none
  journal : Option String := none
  volume : Option String := none
  pages : Option String := none
  year : Option String := none
  title : Option String := none
deriving Repr, DecidableEq

/-- The keyword arguments of `imbibe.crossref_find_from_journalref` as
built by `bibextract.process_entry` (lines 14-26). -/
structure JournalRefQuery where
  journaltitle : String
  volume : String
  number : String
  year : String
  articletitle : Option String := none
deriving Repr, DecidableEq

/-- A Crossref match as `bibextract.process_entry` reads it. -/
structure CrMatch where
  title : List String
  DOI : String
deriving Repr, DecidableEq

/-- The tail of `bibextract.process_entry` (lines 38-46): reverse-look
up an arXiv id for the matched DOI; when none is found, warn and fall
back to the `doi:`-prefixed identifier. -/
def process_entry_resolve (arxiv_find_from_doi : String → Option String)
    (entryid : String) (m : CrMatch) (warns : List String) :
    Option String × List String :=
  let doi := m.DOI
  match arxiv_find_from_doi doi with
  | none => (some ("doi:" ++ doi ++ " [bibtex_id:" ++ entryid ++ "]"),
             warns ++ ["WARNING: No arXiv ID found for DOI: " ++ doi])
  | some a => (some (a ++ " [bibtex_id:" ++ entryid ++ "]"), warns)

/-- `bibextract.process_entry` (`bibextract.py` lines 8-46).  The two
external lookup services are parameters.  The result is the emitted
directive line (or `none` when the entry is skipped or unresolved)
together with the warning blocks printed to stderr; the title
cross-check block of three stderr lines is one warning element. -/
def process_entry (crossref_find_from_journalref : JournalRefQuery → Option CrMatch)
    (arxiv_find_from_doi : String → Option String)
    (entry : BibEntry) : Except String (Option String × List String) :=
  if entry.entrytype ≠ "article" then .ok (none, [])
  else if entry.imbibeable = some "no" then .ok (none, [])
  else
    match entry.journal, entry.volume, entry.pages, entry.year with
    | some j, some v, some p, some y =>
      let q : JournalRefQuery :=
        { journaltitle := j, volume := v, number := p, year := y,
          articletitle := entry.title }
      match crossref_find_from_journalref q with
      | none =>
        .ok (none, ["WARNING: lookup for article with bibtex ID " ++
                    entry.id ++ " failed."])
      | some m =>
        match entry.title with
        | some t =>
          match m.title with
          | [] => .error "IndexError"
          | mt :: _ =>
            let warns := if mt.toLower ≠ t.toLower then
                ["WARNING: titles did not agree for article with bibtex ID " ++
                 entry.id ++ "\nBibtex entry has title:" ++ t ++
                 "\nCrossref has title:" ++ mt]
              else []
            .ok (process_entry_resolve arxiv_find_from_doi entry.id m warns)
        | none => .ok (process_entry_resolve arxiv_find_from_doi entry.id m [])
    | _, _, _, _ => .ok (none, [])

/-- A record parsed from a line such as `doi:10.1/a`. -/
def exDoiRec : BibRec :=
  { canonical_id := "doi:10.1/a", doi := some "10.1/a" }

/-- A record with the same DOI parsed from a different line
(`doi:10.1/a [comment:x]`). -/
def exDoiRec2 : BibRec :=
  { canonical_id := "doi:10.1/a", doi := some "10.1/a", comment := some "x" }

/-- An article entry with every journal-reference field present. -/
def exEntry : BibEntry :=
  { entrytype := "article", id := "K1", journal := some "J", volume := some "12",
    pages := some "34", year := some "1999", title := some "T" }

/-- An article entry with no title field. -/
def exEntryNoTitle : BibEntry :=
  { entrytype := "article", id := "K2", journal := some "J", volume := some "12",
    pages := some "34", year := some "1999" }

/-- A record with a user-supplied DOI. -/
def exArxRec : BibRec :=
  { canonical_id := "arXiv:2303.01234", arxivid := some "2303.01234",
    doi := some "10.1/a" }

/-- An arXiv response reporting a different DOI. -/
def exArxRes : ArxivResult :=
  { authors := ["Ann Author"], title := "T", summary := "S", doi := some "10.1/b" }

/-- An arXiv response reporting no DOI. -/
def exArxResPlain : ArxivResult :=
  { authors := ["Ann Author"], title := "T", summary := "S" }

/-- Two never-populated records with arXiv ids `x1` and `x2`. -/
def exItems : List BibRec :=
  [{ canonical_id := "arXiv:x1", arxivid := some "x1" },
   { canonical_id := "arXiv:x2", arxivid := some "x2" }]

/-- A batch query failing with an arbitrary non-400 error. -/
def exQueryBoom : List String → Except Exn (List ArxivResult) :=
  fun _ => .error ⟨"boom"⟩

/-- A batch query failing with the not-found (HTTP 400) signal. -/
def exQuery400 : List String → Except Exn (List ArxivResult) :=
  fun _ => .error ⟨"HTTP Error 400 in query"⟩

/-- A batch query returning too few results. -/
def exQueryShort : List String → Except Exn (List ArxivResult) :=
  fun _ => .ok []

/-- A single-id query succeeding on every id. -/
def exQuery1Ok : String → Except Exn (List ArxivResult) :=
  fun _ => .ok [exArxResPlain]

/-- A single-id query failing on `x2` only. -/
def exQuery1Bad : String → Except Exn (List ArxivResult) :=
  fun s => if s = "x1" then .ok [exArxResPlain] else .error ⟨"nf"⟩

/-- The transliteration table restricted to the one non-ASCII letter the
examples use. -/
def exTranslit : String → String :=
  fun s => ⟨s.data.map fun c => if c = 'ü' then 'u' else c⟩

/-- A fully populated record whose Crossref data carried no volume. -/
def exNoVolRec : BibRec :=
  { canonical_id := "doi:10.1/a", doi := some "10.1/a", journal := some "J",
    journal_short := some "JS", page := some "12", year := some 1999,
    title := some "T", authors := some ["Ann Author"], doi_populated := true,
    bibtex_id := some "K" }

/-- The same record with the volume warning suppressed. -/
def exNoVolRecS : BibRec :=
  { exNoVolRec with suppress_volumewarning := true }

theorem splitOnChar_head (sep : Char) (l : List Char) :
    (splitOnChar sep l).headD [] = l.takeWhile (· ≠ sep) := by
  induction l with
  | nil => rfl
  | cons c rest ih =>
    by_cases h : c = sep
    · subst h
      simp [splitOnChar, List.takeWhile]
    · simp only [splitOnChar, if_neg h]
      rw [List.takeWhile_cons_of_pos (by simpa using h)]
      cases hs : splitOnChar sep rest with
      | nil => simp [hs] at ih; simp [ih]
      | cons g gs => simpa [hs] using congrArg (c :: ·) (by simpa [hs] using ih)

theorem splitOnChar_ne_nil (sep : Char) (l : List Char) :
    splitOnChar sep l ≠ [] := by
  cases l with
  | nil => simp [splitOnChar]
  | cons c rest =>
    simp only [splitOnChar]
    split
    · simp
    · cases hs : splitOnChar sep rest <;> simp

theorem splitOnChar_no_sep (sep : Char) (l : List Char) (h : sep ∉ l) :
    splitOnChar sep l = [l] := by
  induction l with
  | nil => rfl
  | cons c rest ih =>
    have hc : c ≠ sep := by
      intro hcc; exact h (hcc ▸ List.mem_cons_self c rest)
    have hrest : sep ∉ rest := fun hm => h (List.mem_cons_of_mem c hm)
    simp only [splitOnChar, if_neg hc, ih hrest]

theorem splitOnChar_one_sep (sep : Char) (pre post : List Char)
    (hpre : sep ∉ pre) (hpost : sep ∉ post) :
    splitOnChar sep (pre ++ sep :: post) = [pre, post] := by
  induction pre with
  | nil =>
    simp [splitOnChar, splitOnChar_no_sep sep post hpost]
  | cons c rest ih =>
    have hc : c ≠ sep := by
      intro h; exact hpre (h ▸ List.mem_cons_self c rest)
    have hrest : sep ∉ rest := fun h => hpre (List.mem_cons_of_mem c h)
    simp only [List.cons_append, splitOnChar, if_neg hc]
    rw [show rest.append (sep :: post) = rest ++ sep :: post from rfl, ih hrest]

/-- C1 counterexample: the title `The Quick Brown Fox Jumps` has all
five words capitalized (more than half), yet the auto case policy
renders it through selective word protection (here leaving it entirely
unwrapped, since no word is on the protected list), not as the single
double-braced unit the claim asserts. -/
theorem C1_counterexample :
    title_line ["Quantum"] none "The Quick Brown Fox Jumps" =
      .ok "  title=\x7bThe Quick Brown Fox Jumps\x7d," ∧
    ("  title=\x7bThe Quick Brown Fox Jumps\x7d," : String) ≠
      "  title=\x7b\x7bThe Quick Brown Fox Jumps\x7d\x7d," :=
  ⟨rfl, by decide⟩

/-- C1 (amended): under the auto (or absent) case policy the heuristic
is the reverse of the claim: if strictly more than half of the
whitespace-separated words begin with an uppercase letter, the
formatter applies selective protection (wrapping only protected-list
words); otherwise it wraps the whole title as one double-braced unit. -/
theorem C1_title_case_policy (prot : List String) (title : String)
    (h : pySplitWs title ≠ []) :
    (2 * ((pySplitWs title).filter fun w => pyIsUpper (w.headD ' ')).length >
        (pySplitWs title).length →
      title_line prot none title =
        .ok ("  title=\x7b" ++ protect_words prot title ++ "\x7d,")) ∧
    (2 * ((pySplitWs title).filter fun w => pyIsUpper (w.headD ' ')).length ≤
        (pySplitWs title).length →
      title_line prot none title =
        .ok ("  title=\x7b\x7b" ++ title ++ "\x7d\x7d,")) := by
  have hn : (pySplitWs title).length ≠ 0 :=
    fun h0 => h (List.length_eq_zero.mp h0)
  constructor
  · intro hgt
    unfold title_line origcase_heuristic
    rw [if_neg hn, if_pos hgt]
  · intro hle
    unfold title_line origcase_heuristic
    rw [if_neg hn, if_neg (Nat.not_lt.mpr hle)]

/-- C1 witness: a mostly-capitalized title goes through selective
protection, a mostly-lowercase one is wrapped whole. -/
theorem C1_title_case_policy_witness :
    title_line ["Quantum"] none "The Quick Brown Fox" =
      .ok ("  title=\x7b" ++ protect_words ["Quantum"] "The Quick Brown Fox" ++ "\x7d,") ∧
    title_line ["Quantum"] none "A study of Quantum effects" =
      .ok ("  title=\x7b\x7b" ++ "A study of Quantum effects" ++ "\x7d\x7d,") :=
  ⟨(C1_title_case_policy ["Quantum"] "The Quick Brown Fox" (by decide)).1 (by decide),
   (C1_title_case_policy ["Quantum"] "A study of Quantum effects" (by decide)).2 (by decide)⟩

/-- C2 counterexample: two records parsed from different lines but
sharing DOI `10.1/a` produce a submission list containing that id
twice, and `crossref_read` then issues two single-id calls for it — the
id list is not deduplicated. -/
theorem C2_counterexample :
    dois_to_submit [exDoiRec, exDoiRec2] = ["10.1/a", "10.1/a"] ∧
    ¬ (dois_to_submit [exDoiRec, exDoiRec2]).Nodup ∧
    crossref_calls (dois_to_submit [exDoiRec, exDoiRec2]) =
      [["10.1/a"], ["10.1/a"]] :=
  ⟨rfl, by decide, rfl⟩

/-- C2 (amended): the document resolver submits exactly one lookup per
record whose DOI is present and not yet populated, in record order,
without deduplicating by id: the submission list has one entry per such
record. -/
theorem C2_one_submission_per_record (items : List BibRec) :
    (dois_to_submit items).length = (bibitems_with_doi items).length := by
  unfold dois_to_submit
  have h : ∀ b ∈ bibitems_with_doi items, b.doi.isSome = true := by
    intro b hb
    have := List.of_mem_filter hb
    exact (Bool.and_eq_true _ _).mp this |>.1
  revert h
  generalize bibitems_with_doi items = l
  intro h
  induction l with
  | nil => rfl
  | cons b bs ih =>
    obtain ⟨d, hd⟩ := Option.isSome_iff_exists.mp (h b (List.mem_cons_self b bs))
    simp only [List.filterMap_cons, hd, List.length_cons]
    rw [ih fun x hx => h x (List.mem_cons_of_mem b hx)]

/-- C3 counterexample: an article entry whose journal-reference query
returns no match produces a warning and no directive line at all — in
particular no bare `doi:` line (there is no DOI to fall back to when
the lookup itself failed). -/
theorem C3_counterexample :
    process_entry (fun _ => none) (fun _ => none) exEntry =
      .ok (none, ["WARNING: lookup for article with bibtex ID K1 failed."]) :=
  rfl

/-- C3 (amended): when the journal-reference query of an article entry
returns no match, the extractor warns and emits no directive line for
that entry; the bare `doi:`-prefixed fallback line is emitted in a
different situation, namely when a match was found but the reverse
arXiv lookup of the matched DOI returns nothing. -/
theorem C3_nomatch_behaviour
    (cr : JournalRefQuery → Option CrMatch) (ax : String → Option String)
    (e : BibEntry) (j v p y : String)
    (ht : e.entrytype = "article") (him : e.imbibeable ≠ some "no")
    (hj : e.journal = some j) (hv : e.volume = some v)
    (hp : e.pages = some p) (hy : e.year = some y) :
    (cr { journaltitle := j, volume := v, number := p, year := y,
          articletitle := e.title } = none →
      process_entry cr ax e =
        .ok (none, ["WARNING: lookup for article with bibtex ID " ++
                    e.id ++ " failed."])) ∧
    (∀ m, cr { journaltitle := j, volume := v, number := p, year := y,
                articletitle := e.title } = some m →
      e.title = none → ax m.DOI = none →
      process_entry cr ax e =
        .ok (some ("doi:" ++ m.DOI ++ " [bibtex_id:" ++ e.id ++ "]"),
             ["WARNING: No arXiv ID found for DOI: " ++ m.DOI])) := by
  constructor
  · intro hcr
    unfold process_entry
    rw [if_neg (by simp [ht]), if_neg him, hj, hv, hp, hy]
    simp only [hcr]
  · intro m hcr htitle hax
    rw [htitle] at hcr
    unfold process_entry
    rw [if_neg (by simp [ht]), if_neg him, hj, hv, hp, hy]
    simp only [htitle, hcr]
    unfold process_entry_resolve
    simp only [hax, List.nil_append]

/-- C3 witness: the two behaviours at concrete inputs. -/
theorem C3_nomatch_behaviour_witness :
    process_entry (fun _ => none) (fun _ => none) exEntryNoTitle =
      .ok (none, ["WARNING: lookup for article with bibtex ID " ++
                  "K2" ++ " failed."]) ∧
    process_entry (fun _ => some { title := ["T"], DOI := "10.5/z" })
        (fun _ => none) exEntryNoTitle =
      .ok (some ("doi:" ++ "10.5/z" ++ " [bibtex_id:" ++ "K2" ++ "]"),
           ["WARNING: No arXiv ID found for DOI: " ++ "10.5/z"]) :=
  ⟨(C3_nomatch_behaviour (fun _ => none) (fun _ => none) exEntryNoTitle
      "J" "12" "34" "1999" rfl (by decide) rfl rfl rfl rfl).1 rfl,
   (C3_nomatch_behaviour (fun _ => some { title := ["T"], DOI := "10.5/z" })
      (fun _ => none) exEntryNoTitle
      "J" "12" "34" "1999" rfl (by decide) rfl rfl rfl rfl).2
     { title := ["T"], DOI := "10.5/z" } rfl rfl rfl⟩

/-- C4: when a record carries a user-supplied DOI and the arXiv
response reports a different one, the record keeps the user DOI
unchanged and exactly one warning block is emitted. -/
theorem C4_user_doi_wins (b : BibRec) (r : ArxivResult) (d d2 : String)
    (hb : b.doi = some d) (hr : r.doi = some d2) (hne : d ≠ d2) :
    (read_arxiv_information b r).1.doi = some d ∧
    (read_arxiv_information b r).2.length = 1 := by
  unfold read_arxiv_information
  simp [hb, hr, hne]

/-- C4 witness: user DOI `10.1/a` survives a conflicting provider DOI
`10.1/b` with one warning. -/
theorem C4_user_doi_wins_witness :
    (read_arxiv_information exArxRec exArxRes).1.doi = some "10.1/a" ∧
    (read_arxiv_information exArxRec exArxRes).2.length = 1 :=
  C4_user_doi_wins exArxRec exArxRes "10.1/a" "10.1/b" rfl rfl (by decide)

theorem arxiv_individual_query_first_error
    (query1 : String → Except Exn (List ArxivResult))
    (pre post : List String) (x : String) (ee : Exn)
    (hpre : ∀ y ∈ pre, ∃ r rs, query1 y = .ok (r :: rs))
    (hx : query1 x = .error ee) :
    arxiv_individual_query query1 (pre ++ x :: post) =
      .error (ee, ["arXiv ID not found (or other error): " ++ x]) := by
  induction pre with
  | nil => simp only [List.nil_append, arxiv_individual_query, hx]
  | cons y ys ih =>
    obtain ⟨r, rs, hy⟩ := hpre y (List.mem_cons_self y ys)
    have ih2 := ih fun z hz => hpre z (List.mem_cons_of_mem y hz)
    simp only [List.cons_append, arxiv_individual_query, hy]
    rw [show ys.append (x :: post) = ys ++ x :: post from rfl, ih2]

/-- C5: when the preprint resolver's batch query fails, only the
specific HTTP 400 (not-found class) signal triggers the per-item
fallback, which names the first offending id on stderr and re-raises
the individual exception; any other batch failure re-raises the
original exception with nothing printed; and a successful batch whose
result count differs from the request count raises the
wrong-number-of-papers runtime error. -/
theorem C5_batch_failure_discipline
    (queryN : List String → Except Exn (List ArxivResult))
    (query1 : String → Except Exn (List ArxivResult))
    (items : List BibRec) (hne : arxiv_ids items ≠ []) :
    (∀ e : Exn, queryN (arxiv_ids items) = .error e →
        e.args0 ≠ "HTTP Error 400 in query" →
        populate_arxiv_information queryN query1 items = .error (e, [])) ∧
    (∀ (e : Exn) (pre post : List String) (x : String) (ee : Exn),
        queryN (arxiv_ids items) = .error e →
        e.args0 = "HTTP Error 400 in query" →
        arxiv_ids items = pre ++ x :: post →
        (∀ y ∈ pre, ∃ r rs, query1 y = .ok (r :: rs)) →
        query1 x = .error ee →
        populate_arxiv_information queryN query1 items =
          .error (ee, ["arXiv ID not found (or other error): " ++ x])) ∧
    (∀ rs : List ArxivResult, queryN (arxiv_ids items) = .ok rs →
        rs.length ≠ (arxiv_ids items).length →
        populate_arxiv_information queryN query1 items =
          .error (⟨"arXiv returned wrong number of papers."⟩, [])) := by
  have hlen : ¬ (arxiv_ids items).length = 0 :=
    fun h0 => hne (List.length_eq_zero.mp h0)
  refine ⟨?_, ?_, ?_⟩
  · intro e hq he
    simp only [populate_arxiv_information, hq, hlen, if_false, he,
      ne_eq, not_false_iff, if_true, ite_true, ite_false]
  · intro e pre post x ee hq he hids hpre hx
    have hfall := arxiv_individual_query_first_error query1 pre post x ee hpre hx
    rw [← hids] at hfall
    simp only [populate_arxiv_information, hq, hlen, if_false, he,
      ne_eq, not_true, ite_false, hfall]
  · intro rs hq hrs
    simp only [populate_arxiv_information, hq, hlen, if_false, hrs,
      ne_eq, not_false_iff, if_true, ite_true, ite_false]

/-- C5 witness: the three paths at concrete query functions over the
two-record list. -/
theorem C5_batch_failure_discipline_witness :
    populate_arxiv_information exQueryBoom exQuery1Ok exItems =
      .error (⟨"boom"⟩, []) ∧
    populate_arxiv_information exQuery400 exQuery1Bad exItems =
      .error (⟨"nf"⟩, ["arXiv ID not found (or other error): " ++ "x2"]) ∧
    populate_arxiv_information exQueryShort exQuery1Ok exItems =
      .error (⟨"arXiv returned wrong number of papers."⟩, []) :=
  ⟨(C5_batch_failure_discipline exQueryBoom exQuery1Ok exItems (by decide)).1
      ⟨"boom"⟩ rfl (by decide),
   (C5_batch_failure_discipline exQuery400 exQuery1Bad exItems (by decide)).2.1
      ⟨"HTTP Error 400 in query"⟩ ["x1"] [] "x2" ⟨"nf"⟩ rfl rfl rfl
      (by intro y hy
          rw [List.mem_singleton] at hy
          subst hy
          exact ⟨exArxResPlain, [], rfl⟩)
      rfl,
   (C5_batch_failure_discipline exQueryShort exQuery1Ok exItems (by decide)).2.2
      [] rfl (by decide)⟩

/-- C6: the derived citation key is the transliteration of the
alphabetic-only form of the first author's family name, an underscore,
and the stamp taken from the preprint id: the segment before the dot
for dot-form ids (the assertion requires it to have 4 characters), and
the first 4 characters after the slash for single-slash legacy ids. -/
theorem C6_key_derivation (translit : String → String) (name arxivid : String) :
    (∀ pre post : List Char, arxivid.data = pre ++ '/' :: post →
        '/' ∉ pre → '/' ∉ post →
        make_bibtexid_from_arxivid translit name arxivid =
          .ok (translit (strip_nonalphabetic name) ++ "_" ++
               (⟨post.take 4⟩ : String))) ∧
    ('/' ∉ arxivid.data →
        (arxivid.data.takeWhile (· ≠ '.')).length = 4 →
        make_bibtexid_from_arxivid translit name arxivid =
          .ok (translit (strip_nonalphabetic name) ++ "_" ++
               (⟨arxivid.data.takeWhile (· ≠ '.')⟩ : String))) := by
  constructor
  · intro pre post hdecomp hpre hpost
    simp only [make_bibtexid_from_arxivid, hdecomp,
      splitOnChar_one_sep '/' pre post hpre hpost]
    rw [if_pos (List.mem_append_right pre (List.mem_cons_self '/' post))]
    rfl
  · intro hnot h4
    simp only [make_bibtexid_from_arxivid, hnot, if_false,
      splitOnChar_head '.' arxivid.data, h4, if_true, ite_true, ite_false]

/-- C6 witness: `Müller` with `2303.01234` gives `Muller_2303`,
`Smith` with `hep-th/9901001` gives `Smith_9901`. -/
theorem C6_key_derivation_witness :
    make_bibtexid_from_arxivid exTranslit "Müller" "2303.01234" =
      .ok "Muller_2303" ∧
    make_bibtexid_from_arxivid exTranslit "Smith" "hep-th/9901001" =
      .ok "Smith_9901" :=
  ⟨((C6_key_derivation exTranslit "Müller" "2303.01234").2
      (by decide) (by decide)).trans (congrArg Except.ok (by decide)),
   ((C6_key_derivation exTranslit "Smith" "hep-th/9901001").1
      "hep-th".data "9901001".data rfl (by decide) (by decide)).trans
     (congrArg Except.ok (by decide))⟩

/-- C7: an option key that is none of the five built-in keys and none
of the configured extra-field keys is a hard parse error, and a DOI
given both as the bare `doi:` identifier and through the `doi` option
(more generally, a `doi` option meeting an already-set DOI) is a hard
parse error. -/
theorem C7_parse_errors (fields : List String) (st : ParseOpts)
    (key value : String) :
    (key ≠ "doi" → key ≠ "bibtex_id" → key ≠ "suppress_volumewarning" →
     key ≠ "comment" → key ≠ "origcase" → key ∉ fields →
      dispatch_opt fields st key value =
        .error ("Invalid option name: \x27" ++ key ++ "\x27")) ∧
    (st.doi.isSome = true →
      dispatch_opt fields st "doi" value = .error "Specified DOI twice.") ∧
    init_from_input_file_line fields [] "doi:10.1/x [doi:10.1/y]" =
      .error "Specified DOI twice." := by
  refine ⟨?_, ?_, ?_⟩
  · intro hk1 hk2 hk3 hk4 hk5 hk6
    unfold dispatch_opt
    rw [if_neg hk1, if_neg hk2, if_neg hk3, if_neg hk4, if_neg hk5]
    simp [hk6]
  · intro hd
    unfold dispatch_opt
    simp [hd]
  · rfl

/-- C7 witness: concrete unknown key, concrete duplicate DOI, and the
full line `doi:10.1/x [doi:10.1/y]`. -/
theorem C7_parse_errors_witness :
    dispatch_opt ["note"] { doi := some "10.1/x" } "frobnicate" "1" =
      .error ("Invalid option name: \x27" ++ "frobnicate" ++ "\x27") ∧
    dispatch_opt ["note"] { doi := some "10.1/x" } "doi" "1" =
      .error "Specified DOI twice." ∧
    init_from_input_file_line ["note"] [] "doi:10.1/x [doi:10.1/y]" =
      .error "Specified DOI twice." :=
  ⟨(C7_parse_errors ["note"] { doi := some "10.1/x" } "frobnicate" "1").1
      (by decide) (by decide) (by decide) (by decide) (by decide) (by decide),
   (C7_parse_errors ["note"] { doi := some "10.1/x" } "frobnicate" "1").2.1 rfl,
   (C7_parse_errors ["note"] { doi := some "10.1/x" } "frobnicate" "1").2.2⟩

/-- C8: a document-populated record with no volume renders its journal
block as exactly the journal, pages and year lines — no volume line —
with exactly one warning block, or none when suppression was requested;
and the formatter's whole warning output is exactly that. -/
theorem C8_missing_volume (b : BibRec) (j js pg t : String) (yr : Int)
    (hdp : b.doi_populated = true)
    (hj : b.journal = some j) (hjs : b.journal_short = some js)
    (hpg : b.page = some pg) (hyr : b.year = some yr) (ht : b.title = some t)
    (hv : b.volume = none) :
    journal_block b =
      .ok (["  journal=\x7b" ++ js ++ "\x7d,",
            "  pages=\x7b" ++ pg ++ "\x7d,",
            "  year=\x7b" ++ toString yr ++ "\x7d,"],
           if b.suppress_volumewarning then [] else [volume_warning t]) ∧
    (∀ (prot : List String) (translit : String → String) (ep : Bool)
       (out warns : List String),
      output_bib prot translit b ep = .ok (out, warns) →
      warns = if b.suppress_volumewarning then [] else [volume_warning t]) := by
  have h1 : journal_block b =
      .ok (["  journal=\x7b" ++ js ++ "\x7d,",
            "  pages=\x7b" ++ pg ++ "\x7d,",
            "  year=\x7b" ++ toString yr ++ "\x7d,"],
           if b.suppress_volumewarning then [] else [volume_warning t]) := by
    simp only [journal_block, hj, hjs, hpg, hyr, hv, ht]
    by_cases hs : b.suppress_volumewarning <;> simp [hs]
  refine ⟨h1, ?_⟩
  intro prot translit ep out warns
  unfold output_bib
  cases hg : generate_bibtexid translit b with
  | error err => simp
  | ok bid =>
    simp only [h1, ht]
    cases htl : title_line prot b.origcase t with
    | error err => simp
    | ok tl =>
      simp only []
      cases ha : b.authors with
      | none => simp
      | some auths =>
        intro h
        simp only [Except.ok.injEq, Prod.mk.injEq] at h
        exact h.2.symm

/-- C8 witness: the concrete volume-less record, unsuppressed and
suppressed. -/
theorem C8_missing_volume_witness :
    journal_block exNoVolRec =
      .ok (["  journal=\x7b" ++ "JS" ++ "\x7d,",
            "  pages=\x7b" ++ "12" ++ "\x7d,",
            "  year=\x7b" ++ toString (1999 : Int) ++ "\x7d,"],
           [volume_warning "T"]) ∧
    journal_block exNoVolRecS =
      .ok (["  journal=\x7b" ++ "JS" ++ "\x7d,",
            "  pages=\x7b" ++ "12" ++ "\x7d,",
            "  year=\x7b" ++ toString (1999 : Int) ++ "\x7d,"],
           []) :=
  ⟨(C8_missing_volume exNoVolRec "J" "JS" "12" "T" 1999
      rfl rfl rfl rfl rfl rfl rfl).1,
   (C8_missing_volume exNoVolRecS "J" "JS" "12" "T" 1999
      rfl rfl rfl rfl rfl rfl rfl).1⟩

/-- C9: an unrecognized value for the `origcase` (case-policy) option
is silently accepted and leaves the policy unset (the auto behaviour),
while an unrecognized value for `suppress_volumewarning` is a hard
parse error; at line level, `origcase:bogus` parses successfully with
an unset policy. -/
theorem C9_origcase_lenient (fields : List String) (st : ParseOpts)
    (value : String) (hoc : st.origcase = none)
    (hv1 : value ≠ "yes") (hv2 : value ≠ "no") (hv3 : value ≠ "auto") :
    dispatch_opt fields st "origcase" value = .ok { st with origcase := none } ∧
    dispatch_opt fields st "suppress_volumewarning" value =
      .error ("Invalid value: \x27" ++ value ++ "\x27") ∧
    init_from_input_file_line fields [] "2303.01234 [origcase:bogus]" =
      .ok ({ canonical_id := "arXiv:" ++ "2303.01234",
             arxivid := some "2303.01234" },
           [("2303.01234 [origcase:bogus]",
             { canonical_id := "arXiv:" ++ "2303.01234",
               arxivid := some "2303.01234" })]) := by
  have hst : { st with origcase := none } = st := by
    cases st
    simp only [ParseOpts.mk.injEq] at hoc ⊢
    simp_all
  refine ⟨?_, ?_, ?_⟩
  · rw [hst]
    unfold dispatch_opt
    rw [if_neg (by decide), if_neg (by decide), if_neg (by decide),
        if_neg (by decide), if_pos rfl, if_neg hv1, if_neg hv2, if_neg hv3]
  · unfold dispatch_opt
    rw [if_neg (by decide), if_neg (by decide), if_pos rfl,
        if_neg hv1, if_neg hv2]
  · rfl

/-- C9 witness: the concrete value `bogus`. -/
theorem C9_origcase_lenient_witness :
    dispatch_opt ["note"] {} "origcase" "bogus" = .ok {} ∧
    dispatch_opt ["note"] {} "suppress_volumewarning" "bogus" =
      .error ("Invalid value: \x27" ++ "bogus" ++ "\x27") ∧
    init_from_input_file_line ["note"] [] "2303.01234 [origcase:bogus]" =
      .ok ({ canonical_id := "arXiv:" ++ "2303.01234",
             arxivid := some "2303.01234" },
           [("2303.01234 [origcase:bogus]",
             { canonical_id := "arXiv:" ++ "2303.01234",
               arxivid := some "2303.01234" })]) :=
  ⟨(C9_origcase_lenient ["note"] {} "bogus" rfl
      (by decide) (by decide) (by decide)).1,
   (C9_origcase_lenient ["note"] {} "bogus" rfl
      (by decide) (by decide) (by decide)).2.1,
   (C9_origcase_lenient ["note"] {} "bogus" rfl
      (by decide) (by decide) (by decide)).2.2⟩

/-- C10: with both identifiers present the canonical id is derived from
the arXiv id (and in general the `arXiv:` form is used whenever an
arXiv id is supplied, whatever the DOI argument); the `doi:` form is
used only when no arXiv id is supplied; and construction with neither
identifier is an error. -/
theorem C10_canonical_id (a d : String) :
    BibItem_init (some a) (some d) =
      .ok { canonical_id := "arXiv:" ++ a, arxivid := some a, doi := some d } ∧
    (∀ o : Option String, BibItem_init (some a) o =
      .ok { canonical_id := "arXiv:" ++ a, arxivid := some a, doi := o }) ∧
    BibItem_init none (some d) =
      .ok { canonical_id := "doi:" ++ d, doi := some d } ∧
    BibItem_init none none = .error "Need to specify either arXiv ID or DOI!" :=
  ⟨rfl, fun _ => rfl, rfl, rfl⟩

end Imbibe
